import Mathlib

/-!
# Verification of the i-ar-da trivia session engine

Shallow embedding of the game-session state engine:
* the `GameProvider` state and operations (src/app/settings/index.tsx,
  persistence-enabled revision): draw outcome / draw question / complete /
  discard-pile navigation / resets / hydration repair;
* `resetUsedQuestionsForCategory` from src/hooks/useGameEngine.ts;
* the persisted-state validator and loader from
  src/storage/gameStateStorage.ts, modelled at the JSON level.

Randomness (`Math.floor(Math.random() * n)`) is modelled by passing the
sampled index as an explicit parameter.
-/

/-- The four fixed category identifiers (`CATEGORY_IDS` in the source;
`categories` in src/constants/categories.ts). -/
inductive CategoryId
  | prylar
  | personer
  | underhallning
  | blandat
deriving DecidableEq, Repr

/-- `CATEGORY_IDS = ["prylar", "personer", "underhallning", "blandat"]`. -/
def CATEGORY_IDS : List CategoryId :=
  [CategoryId.prylar, CategoryId.personer, CategoryId.underhallning, CategoryId.blandat]

/-- The string id of a category, as spelled in the source. -/
def CategoryId.name : CategoryId → String
  | .prylar => "prylar"
  | .personer => "personer"
  | .underhallning => "underhallning"
  | .blandat => "blandat"

/-- `getCategoryById` from src/constants/categories.ts: finds the category
record with the given string id (here reduced to its id, the only field the
engine logic reads). -/
def getCategoryById (s : String) : Option CategoryId :=
  CATEGORY_IDS.find? (fun c => c.name == s)

/-- A catalog question (interface `Question`).  `category` is typed with the
closed category set, mirroring the catalog invariant that every question's
category is one of the four ids. -/
structure Question where
  id : Nat
  category : CategoryId
  date : String
  event : String
  answer : String
deriving DecidableEq, Repr

instance : Inhabited Question := ⟨⟨0, CategoryId.prylar, "", "", ""⟩⟩

/-- Outcome of the dice (`RandomOutcome`): either a direct category or a
manual-choice mode (`user` / `opponent`). -/
inductive RandomOutcome
  | category (categoryId : CategoryId)
  | choose (userMode : Bool)  -- true = "user", false = "opponent"
deriving DecidableEq, Repr

/-- `FlowStep` from src/storage/gameStateStorage.ts. -/
inductive FlowStep
  | home
  | dice
  | categoryResult
  | chooseCategory
  | question
  | discardPile
deriving DecidableEq, Repr

/-- `ActivePopup` non-null variants. -/
inductive PopupKind
  | emptyCategory
  | allCardsFinished
  | menu
deriving DecidableEq, Repr

/-- `GameState` union: "idle" | "playing" | "finished". -/
inductive GState
  | idle
  | playing
  | finished
deriving DecidableEq, Repr

/-- The `lastOutcome` persisted field: one of the four category names or
"choose-user" / "choose-opponent". -/
inductive LastOutcome
  | cat (c : CategoryId)
  | chooseUser
  | chooseOpponent
deriving DecidableEq, Repr

/-- `usedQuestionsByCategory`: a record with exactly the four category keys,
each holding the list of consumed question ids of that category. -/
structure UsedMap where
  prylar : List Nat
  personer : List Nat
  underhallning : List Nat
  blandat : List Nat
deriving DecidableEq, Repr

/-- Read one category's consumed list. -/
def UsedMap.get (m : UsedMap) : CategoryId → List Nat
  | .prylar => m.prylar
  | .personer => m.personer
  | .underhallning => m.underhallning
  | .blandat => m.blandat

/-- Functional update of one category's consumed list
(the spread `(...prev, [cat]: ids)` pattern). -/
def UsedMap.set (m : UsedMap) (c : CategoryId) (ids : List Nat) : UsedMap :=
  match c with
  | .prylar => { m with prylar := ids }
  | .personer => { m with personer := ids }
  | .underhallning => { m with underhallning := ids }
  | .blandat => { m with blandat := ids }

/-- The all-empty record the provider initialises and resets to. -/
def UsedMap.empty : UsedMap := ⟨[], [], [], []⟩

/-- The live state held by `GameProvider` (src/app/settings/index.tsx).
`discardIndex` is an `Int` because the JS number restored by hydration is
only clamped from above. -/
structure GameSt where
  flowStep : FlowStep
  chooseCategoryMode : Option Bool  -- some true = "user", some false = "opponent"
  categoryResultId : Option String
  isFlipped : Bool
  hasRevealedAnswer : Bool
  gameState : GState
  currentCategory : Option CategoryId
  currentQuestionId : Option Nat
  usedQuestionsByCategory : UsedMap
  discardPile : List Nat
  discardIndex : Int
  sessionId : String
  createdAt : Int
  lastOutcome : Option LastOutcome
  menuVisible : Bool
  activePopup : Option PopupKind
deriving DecidableEq, Repr

/-- The state at provider mount, before hydration. -/
def initialGameSt : GameSt :=
  { flowStep := .home
    chooseCategoryMode := none
    categoryResultId := none
    isFlipped := false
    hasRevealedAnswer := false
    gameState := .idle
    currentCategory := none
    currentQuestionId := none
    usedQuestionsByCategory := UsedMap.empty
    discardPile := []
    discardIndex := 0
    sessionId := ""
    createdAt := 0
    lastOutcome := none
    menuVisible := false
    activePopup := none }

/-- Derived `currentQuestion`: look the current id up in the catalog
(`allQuestions.find((q) => q.id === currentQuestionId) || null`). -/
def currentQuestion (qs : List Question) (s : GameSt) : Option Question :=
  match s.currentQuestionId with
  | none => none
  | some qid => qs.find? (fun q => q.id == qid)

/-- `getTotalQuestionsInCategory`. -/
def getTotalQuestionsInCategory (qs : List Question) (c : CategoryId) : Nat :=
  (qs.filter (fun q => q.category == c)).length

/-- `getRemainingCards`: catalog total minus length of the consumed list
(an `Int`, since the consumed list is not intersected with the catalog). -/
def getRemainingCards (qs : List Question) (s : GameSt) (c : CategoryId) : Int :=
  (getTotalQuestionsInCategory qs c : Int) - ((s.usedQuestionsByCategory.get c).length : Int)

/-- `isCategoryEmpty`: zero remaining cards. -/
def isCategoryEmpty (qs : List Question) (s : GameSt) (c : CategoryId) : Bool :=
  getRemainingCards qs s c == 0

/-- `areAllCategoriesEmpty`: every one of the four categories is empty. -/
def areAllCategoriesEmpty (qs : List Question) (s : GameSt) : Bool :=
  CATEGORY_IDS.all (fun c => isCategoryEmpty qs s c)

/-- `getAvailableOutcomes`: one category outcome per non-empty category, in
`CATEGORY_IDS` order, then the two choose modes. -/
def getAvailableOutcomes (qs : List Question) (s : GameSt) : List RandomOutcome :=
  (CATEGORY_IDS.filter (fun c => !(isCategoryEmpty qs s c))).map RandomOutcome.category
    ++ [RandomOutcome.choose true, RandomOutcome.choose false]

instance : Inhabited RandomOutcome := ⟨RandomOutcome.choose true⟩

/-- `drawRandomOutcome`.  `r` is the sampled random index (the source draws
it uniformly below the list length; out-of-range values are reduced
mod the length, which never happens under the source's sampling). -/
def drawRandomOutcome (qs : List Question) (s : GameSt) (r : Nat) :
    Option RandomOutcome × GameSt :=
  if areAllCategoriesEmpty qs s then
    (none, s)
  else
    let availableOutcomes := getAvailableOutcomes qs s
    if availableOutcomes.length == 0 then
      (none, s)
    else
      let outcome := availableOutcomes.getD (r % availableOutcomes.length) default
      let tag := match outcome with
        | .category c => LastOutcome.cat c
        | .choose true => LastOutcome.chooseUser
        | .choose false => LastOutcome.chooseOpponent
      (some outcome, { s with lastOutcome := some tag })

/-- `getAvailableQuestions`: catalog questions of the category whose id is
not in that category's consumed list. -/
def getAvailableQuestions (qs : List Question) (s : GameSt) (c : CategoryId) :
    List Question :=
  qs.filter (fun q => q.category == c && !((s.usedQuestionsByCategory.get c).contains q.id))

/-- `drawRandomQuestion`.  `r` is the sampled random index. -/
def drawRandomQuestion (qs : List Question) (s : GameSt) (c : CategoryId) (r : Nat) :
    Option Question × GameSt :=
  let available := getAvailableQuestions qs s c
  if available.length = 0 then
    (none, s)
  else
    let question := available.getD (r % available.length) default
    (some question,
      { s with currentQuestionId := some question.id
               isFlipped := false
               hasRevealedAnswer := false })

/-- `markQuestionAsUsed`: append the id to its category's consumed list
unless already present. -/
def markQuestionAsUsed (s : GameSt) (q : Question) : GameSt :=
  let categoryUsed := s.usedQuestionsByCategory.get q.category
  if categoryUsed.contains q.id then s
  else { s with usedQuestionsByCategory :=
          s.usedQuestionsByCategory.set q.category (categoryUsed ++ [q.id]) }

/-- `addToDiscardPile`: append unless already present; always reset the
discard index to 0. -/
def addToDiscardPile (s : GameSt) (questionId : Nat) : GameSt :=
  let pile := if s.discardPile.contains questionId then s.discardPile
              else s.discardPile ++ [questionId]
  { s with discardPile := pile, discardIndex := 0 }

/-- `completeCurrentQuestion`: no-op when no current question resolves;
otherwise mark used, add to discard, clear card state. -/
def completeCurrentQuestion (qs : List Question) (s : GameSt) : GameSt :=
  match currentQuestion qs s with
  | none => s
  | some q =>
    let s1 := markQuestionAsUsed s q
    let s2 := addToDiscardPile s1 q.id
    { s2 with currentQuestionId := none
              currentCategory := none
              isFlipped := false
              hasRevealedAnswer := false }

/-- `getDiscardCard`: newest-first addressing into the reversed pile. -/
def getDiscardCard (qs : List Question) (s : GameSt) (index : Int) : Option Question :=
  if s.discardPile.length = 0 then none
  else
    let reversedPile := s.discardPile.reverse
    if index < 0 ∨ (reversedPile.length : Int) ≤ index then none
    else
      (reversedPile.get? index.toNat).bind (fun questionId =>
        qs.find? (fun q => q.id == questionId))

/-- `navigateDiscardPile`: move the cursor by `direction` when the target
stays in range, else leave the state alone; return the card at the
resulting cursor. -/
def navigateDiscardPile (qs : List Question) (s : GameSt) (direction : Int) :
    GameSt × Option Question :=
  let newIndex := s.discardIndex + direction
  if newIndex < 0 ∨ (s.discardPile.length : Int) ≤ newIndex then
    (s, getDiscardCard qs s s.discardIndex)
  else
    ({ s with discardIndex := newIndex },
      getDiscardCard qs { s with discardIndex := newIndex } newIndex)

/-- `setDiscardIndex` (no bounds check in the source). -/
def setDiscardIndex (s : GameSt) (index : Int) : GameSt :=
  { s with discardIndex := index }

/-- `getCurrentDiscardCard`: the card at the current cursor. -/
def getCurrentDiscardCard (qs : List Question) (s : GameSt) : Option Question :=
  getDiscardCard qs s s.discardIndex

/-- `resetAllUsedQuestions` (provider version): clear every category's
consumed list and the current-card state. -/
def resetAllUsedQuestions (s : GameSt) : GameSt :=
  { s with usedQuestionsByCategory := UsedMap.empty
           currentQuestionId := none
           currentCategory := none
           isFlipped := false
           hasRevealedAnswer := false }

/-- `resetRound` simply delegates to `resetAllUsedQuestions`. -/
def resetRound (s : GameSt) : GameSt :=
  resetAllUsedQuestions s

/-- `resetUsedQuestionsForCategory` from src/hooks/useGameEngine.ts:
clear exactly one category's consumed list, nothing else. -/
def resetUsedQuestionsForCategory (s : GameSt) (categoryId : CategoryId) : GameSt :=
  { s with usedQuestionsByCategory := s.usedQuestionsByCategory.set categoryId [] }

/-- `selectCategory` / `selectCategoryById` (for a valid id both store the
category). -/
def selectCategory (s : GameSt) (c : CategoryId) : GameSt :=
  { s with currentCategory := some c }

/-- `startNewGame` state effects (storage clearing is I/O and out of the
state model); the fresh session id and timestamp are parameters. -/
def startNewGame (s : GameSt) (newSessionId : String) (newCreatedAt : Int) : GameSt :=
  { s with sessionId := newSessionId
           createdAt := newCreatedAt
           usedQuestionsByCategory := UsedMap.empty
           discardPile := []
           currentCategory := none
           currentQuestionId := none
           discardIndex := 0
           isFlipped := false
           hasRevealedAnswer := false
           lastOutcome := none
           flowStep := .dice
           chooseCategoryMode := none
           categoryResultId := none
           menuVisible := false
           activePopup := none
           gameState := .playing }

/-- `endGame` state effects. -/
def endGame (s : GameSt) : GameSt :=
  { s with gameState := .idle
           currentQuestionId := none
           currentCategory := none
           isFlipped := false
           hasRevealedAnswer := false
           discardPile := []
           usedQuestionsByCategory := UsedMap.empty
           flowStep := .home
           sessionId := "" }

/-! ## Persisted snapshots (typed level) and hydration repair -/

/-- `PersistedGameState` (src/storage/gameStateStorage.ts), at the typed
level assumed by the provider after a successful validation. -/
structure PersistedGameState where
  schemaVersion : Int
  sessionId : String
  createdAt : Int
  selectedCategoryId : Option String
  currentQuestionId : Option Nat
  isFlipped : Bool
  hasRevealedAnswer : Bool
  usedQuestionsByCategory : UsedMap
  discardPileIds : List Nat
  discardActiveIndex : Int
  lastOutcome : Option LastOutcome
  flowStep : FlowStep
  chooseCategoryMode : Option Bool
  categoryResultId : Option String
  menuVisible : Bool
  activePopup : Option PopupKind
deriving DecidableEq, Repr

/-- The mount-effect hydration (src/app/settings/index.tsx, `hydrate`):
filter the consumed lists and the discard pile against the catalog, clear an
invalid current question (forcing `flowStep` to dice), clamp the discard
index with `min(stored, cleanedLength - 1)`, and rebuild the provider state.
The second component is the snapshot written back by the repair re-save, or
`none` when the re-save condition does not fire. -/
def hydrate (qs : List Question) (p : PersistedGameState) : GameSt × Option PersistedGameState :=
  let validQuestionIds := qs.map (fun q => q.id)
  let cleanedUsedQuestions : UsedMap :=
    { prylar := p.usedQuestionsByCategory.prylar.filter (fun id => validQuestionIds.contains id)
      personer := p.usedQuestionsByCategory.personer.filter (fun id => validQuestionIds.contains id)
      underhallning :=
        p.usedQuestionsByCategory.underhallning.filter (fun id => validQuestionIds.contains id)
      blandat := p.usedQuestionsByCategory.blandat.filter (fun id => validQuestionIds.contains id) }
  let cleanedDiscardPile := p.discardPileIds.filter (fun id => validQuestionIds.contains id)
  let stale := match p.currentQuestionId with
    | some qid => !(validQuestionIds.contains qid)
    | none => false
  let validCurrentQuestionId := if stale then none else p.currentQuestionId
  let validFlowStep := if stale then FlowStep.dice else p.flowStep
  let hasProgress := cleanedDiscardPile.length > 0
      ∨ (CATEGORY_IDS.any (fun c => (cleanedUsedQuestions.get c).length > 0))
  let restored : GameSt :=
    { flowStep := validFlowStep
      chooseCategoryMode := p.chooseCategoryMode
      categoryResultId := p.categoryResultId
      isFlipped := p.isFlipped
      hasRevealedAnswer := p.hasRevealedAnswer
      gameState := if hasProgress ∨ validFlowStep ≠ FlowStep.home then .playing else .idle
      currentCategory :=
        match p.selectedCategoryId with
        | some cid => if cid ≠ "" then getCategoryById cid else none
        | none => none
      currentQuestionId := validCurrentQuestionId
      usedQuestionsByCategory := cleanedUsedQuestions
      discardPile := cleanedDiscardPile
      discardIndex := min p.discardActiveIndex ((cleanedDiscardPile.length : Int) - 1)
      sessionId := p.sessionId
      createdAt := p.createdAt
      lastOutcome := p.lastOutcome
      menuVisible := false
      activePopup := none }
  let resaved : Option PersistedGameState :=
    if p.currentQuestionId ≠ validCurrentQuestionId ∨ p.flowStep ≠ validFlowStep then
      some { p with currentQuestionId := validCurrentQuestionId
                    flowStep := validFlowStep
                    usedQuestionsByCategory := cleanedUsedQuestions
                    discardPileIds := cleanedDiscardPile }
    else none
  (restored, resaved)

/-! ## Stored values (JSON level) and load validation -/

/-- A JSON value, as produced by a successful `JSON.parse`. -/
inductive Json
  | null
  | bool (b : Bool)
  | num (n : Int)
  | str (s : String)
  | arr (elems : List Json)
  | obj (fields : List (String × Json))

/-- Property read `value[key]` on a parsed JSON value: only objects carry
string-keyed properties (later duplicate keys win, as in `JSON.parse`). -/
def jget (v : Json) (key : String) : Option Json :=
  match v with
  | .obj fields => fields.reverse.lookup key
  | _ => none

/-- JS truthiness of a JSON value. -/
def jsTruthy : Json → Bool
  | .null => false
  | .bool b => b
  | .num n => n != 0
  | .str s => s != ""
  | .arr _ => true
  | .obj _ => true

/-- `typeof v === "object"` for a JSON value (arrays and null included). -/
def jsTypeofObject : Json → Bool
  | .null => true
  | .arr _ => true
  | .obj _ => true
  | _ => false

/-- `typeof state.f === "string"` for a looked-up property. -/
def propIsString : Option Json → Bool
  | some (.str _) => true
  | _ => false

/-- `typeof state.f === "number" && state.f === 1`. -/
def propIsNumberOne : Option Json → Bool
  | some (.num n) => n == 1
  | _ => false

/-- `Array.isArray(state.f)`. -/
def propIsArray : Option Json → Bool
  | some (.arr _) => true
  | _ => false

/-- `typeof state.f === "object" && state.f !== null` (arrays qualify). -/
def propIsNonNullObject : Option Json → Bool
  | some (.obj _) => true
  | some (.arr _) => true
  | _ => false

/-- `validatePersistedState` (src/storage/gameStateStorage.ts): the exact
checks of the source, returning the value unchanged when they pass. -/
def validatePersistedState (data : Json) : Option Json :=
  if !(jsTruthy data) || !(jsTypeofObject data) then none
  else if !(propIsString (jget data "sessionId"))
      || !(propIsNumberOne (jget data "schemaVersion")) then none
  else if !(propIsArray (jget data "discardPileIds")) then none
  else if !(propIsNonNullObject (jget data "usedQuestionsByCategory")) then none
  else some data

/-- What the storage service holds under the game-state key: nothing, a
string that `JSON.parse` rejects, or a parsed JSON value. -/
inductive StoredValue
  | absent
  | malformed
  | json (v : Json)

/-- `loadPersistedGameState`: result value plus whether the storage entry
was cleared (`removeItem`). -/
def loadPersistedGameState (sv : StoredValue) : Option Json × Bool :=
  match sv with
  | .absent => (none, false)
  | .malformed => (none, true)
  | .json v =>
    match validatePersistedState v with
    | some validated => (some validated, false)
    | none => (none, true)

/-! ## Operation traces -/

/-- One engine operation, with any randomness it consumed made explicit. -/
inductive Op
  | drawOutcome (r : Nat)
  | selectCat (c : CategoryId)
  | drawQuestion (c : CategoryId) (r : Nat)
  | markUsed (q : Question)
  | addDiscard (qid : Nat)
  | complete
  | navigate (direction : Int)
  | setIndex (i : Int)
  | resetCat (c : CategoryId)
  | resetAll
  | round
  | startNew (sid : String) (t : Int)
  | endSession
  | setFlipped (b : Bool)
  | setRevealed (b : Bool)
  | setFlow (f : FlowStep)
deriving DecidableEq, Repr

/-- State transition of one operation (return values discarded). -/
def Op.step (qs : List Question) (s : GameSt) : Op → GameSt
  | .drawOutcome r => (drawRandomOutcome qs s r).2
  | .selectCat c => selectCategory s c
  | .drawQuestion c r => (drawRandomQuestion qs s c r).2
  | .markUsed q => markQuestionAsUsed s q
  | .addDiscard qid => addToDiscardPile s qid
  | .complete => completeCurrentQuestion qs s
  | .navigate d => (navigateDiscardPile qs s d).1
  | .setIndex i => setDiscardIndex s i
  | .resetCat c => resetUsedQuestionsForCategory s c
  | .resetAll => resetAllUsedQuestions s
  | .round => resetRound s
  | .startNew sid t => startNewGame s sid t
  | .endSession => endGame s
  | .setFlipped b => { s with isFlipped := b }
  | .setRevealed b => { s with hasRevealedAnswer := b }
  | .setFlow f => { s with flowStep := f }

/-- Run a list of operations left to right. -/
def runOps (qs : List Question) (s : GameSt) : List Op → GameSt
  | [] => s
  | op :: rest => runOps qs (Op.step qs s op) rest

/-- The draw/complete fragment of the operation language (the sequences the
temporal no-repeat claim ranges over). -/
def Op.isDrawOrComplete : Op → Prop
  | .drawQuestion _ _ => True
  | .complete => True
  | _ => False

instance (op : Op) : Decidable op.isDrawOrComplete := by
  cases op <;> simp [Op.isDrawOrComplete] <;> infer_instance

/-! ## Concrete fixtures used by witnesses and counterexamples -/

/-- Sample catalog: two prylar questions, one personer question. -/
def qA1 : Question := ⟨1, .prylar, "d1", "e1", "a1"⟩

def qA2 : Question := ⟨2, .prylar, "d2", "e2", "a2"⟩

def qB1 : Question := ⟨3, .personer, "d3", "e3", "a3"⟩

def sampleCatalog : List Question := [qA1, qA2, qB1]

/-- Catalog for the redraw counterexample. -/
def qX5 : Question := ⟨5, .prylar, "d5", "e5", "a5"⟩

def qX7 : Question := ⟨7, .prylar, "d7", "e7", "a7"⟩

def dupCatalog : List Question := [qX5, qX7]

/-- A state in which question 5 has been redrawn (after a topic reshuffle)
while its id is already in the discard pile. -/
def stRedraw : GameSt :=
  { initialGameSt with discardPile := [5, 7], currentQuestionId := some 5 }

/-- A state in which question 1 has just been drawn. -/
def stDraw1 : GameSt := { initialGameSt with currentQuestionId := some 1 }

/-- A state whose cursor sits at the oldest position of a two-card pile. -/
def stOldest : GameSt :=
  { initialGameSt with discardPile := [1, 2], discardIndex := 1 }

/-- A state with a two-card pile, cursor at the newest position. -/
def stPile12 : GameSt := { initialGameSt with discardPile := [1, 2] }

/-- Persisted snapshot whose only repair is dropping the stale discard id 99. -/
def snapStalePile : PersistedGameState :=
  { schemaVersion := 1, sessionId := "s", createdAt := 0, selectedCategoryId := none,
    currentQuestionId := none, isFlipped := false, hasRevealedAnswer := false,
    usedQuestionsByCategory := UsedMap.empty, discardPileIds := [99],
    discardActiveIndex := 0, lastOutcome := none, flowStep := .dice,
    chooseCategoryMode := none, categoryResultId := none, menuVisible := false,
    activePopup := none }

/-- Persisted snapshot with a negative stored cursor over a valid pile. -/
def snapNegCursor : PersistedGameState :=
  { snapStalePile with discardPileIds := [1], discardActiveIndex := -3 }

/-- Persisted snapshot with a valid pile and a non-negative cursor. -/
def snapValidPile : PersistedGameState :=
  { snapStalePile with discardPileIds := [1], discardActiveIndex := 0 }

/-- A JSON object passing every check of `validatePersistedState` while
missing most fields of the snapshot schema. -/
def snapMinimalObj : Json :=
  .obj [("schemaVersion", .num 1), ("sessionId", .str "s"),
        ("discardPileIds", .arr []), ("usedQuestionsByCategory", .obj [])]

/-! ## Helper lemmas -/

theorem UsedMap.get_set (m : UsedMap) (c c' : CategoryId) (ids : List Nat) :
    (m.set c ids).get c' = if c' = c then ids else m.get c' := by
  cases c <;> cases c' <;> simp [UsedMap.get, UsedMap.set]

theorem markQuestionAsUsed_used_mono (s : GameSt) (q : Question) (c : CategoryId) (x : Nat)
    (hx : x ∈ s.usedQuestionsByCategory.get c) :
    x ∈ (markQuestionAsUsed s q).usedQuestionsByCategory.get c := by
  by_cases h : q.id ∈ s.usedQuestionsByCategory.get q.category
  · simpa [markQuestionAsUsed, h] using hx
  · by_cases hc : c = q.category
    · subst hc; simp [markQuestionAsUsed, h, UsedMap.get_set, hx]
    · simp [markQuestionAsUsed, h, UsedMap.get_set, hc, hx]

theorem markQuestionAsUsed_consumes (s : GameSt) (q : Question) :
    q.id ∈ (markQuestionAsUsed s q).usedQuestionsByCategory.get q.category := by
  by_cases h : q.id ∈ s.usedQuestionsByCategory.get q.category
  · simp [markQuestionAsUsed, h]
  · simp [markQuestionAsUsed, h, UsedMap.get_set]

theorem markQuestionAsUsed_discardPile (s : GameSt) (q : Question) :
    (markQuestionAsUsed s q).discardPile = s.discardPile := by
  by_cases h : q.id ∈ s.usedQuestionsByCategory.get q.category <;>
    simp [markQuestionAsUsed, h]

theorem drawRandomQuestion_used_unchanged (qs : List Question) (s : GameSt)
    (c : CategoryId) (r : Nat) :
    ((drawRandomQuestion qs s c r).2).usedQuestionsByCategory = s.usedQuestionsByCategory := by
  unfold drawRandomQuestion
  by_cases h : (getAvailableQuestions qs s c).length = 0 <;> simp [h]

theorem drawRandomQuestion_discardPile (qs : List Question) (s : GameSt)
    (c : CategoryId) (r : Nat) :
    ((drawRandomQuestion qs s c r).2).discardPile = s.discardPile := by
  unfold drawRandomQuestion
  by_cases h : (getAvailableQuestions qs s c).length = 0 <;> simp [h]

theorem mem_getAvailableQuestions (qs : List Question) (s : GameSt) (c : CategoryId)
    (q : Question) :
    q ∈ getAvailableQuestions qs s c ↔
      q ∈ qs ∧ q.category = c ∧ q.id ∉ s.usedQuestionsByCategory.get c := by
  simp [getAvailableQuestions, List.mem_filter, and_assoc]

theorem getAvailableQuestions_eq_nil_iff (qs : List Question) (s : GameSt) (c : CategoryId) :
    getAvailableQuestions qs s c = [] ↔
      ∀ q ∈ qs, q.category = c → q.id ∈ s.usedQuestionsByCategory.get c := by
  rw [List.eq_nil_iff_forall_not_mem]
  constructor
  · intro hall q hq hcat
    by_contra hid
    exact hall q ((mem_getAvailableQuestions qs s c q).mpr ⟨hq, hcat, hid⟩)
  · intro hall q hq
    rcases (mem_getAvailableQuestions qs s c q).mp hq with ⟨hmem, hcat, hnot⟩
    exact hnot (hall q hmem hcat)

theorem getD_mem_of_ne_nil {α : Type} [Inhabited α] (l : List α) (r : Nat) (h : l ≠ []) :
    l.getD (r % l.length) default ∈ l := by
  have hlen : 0 < l.length := List.length_pos.mpr h
  have hr : r % l.length < l.length := Nat.mod_lt _ hlen
  rw [List.getD_eq_getElem?_getD, List.getElem?_eq_getElem hr]
  exact List.getElem_mem _

theorem getD_eq_get? {α : Type} [Inhabited α] (l : List α) (r : Nat) (h : r < l.length) :
    some (l.getD r default) = l.get? r := by
  rw [List.getD_eq_getElem?_getD, List.get?_eq_getElem?, List.getElem?_eq_getElem h]
  rfl

theorem drawRandomQuestion_eq_none_iff (qs : List Question) (s : GameSt) (c : CategoryId)
    (r : Nat) :
    (drawRandomQuestion qs s c r).1 = none ↔ getAvailableQuestions qs s c = [] := by
  by_cases h : (getAvailableQuestions qs s c).length = 0
  · simp [drawRandomQuestion, h, List.length_eq_zero.mp h]
  · simp [drawRandomQuestion, h]
    exact fun hc => h (by rw [hc]; rfl)

theorem drawRandomQuestion_some_mem (qs : List Question) (s : GameSt) (c : CategoryId)
    (r : Nat) (q : Question) (h : (drawRandomQuestion qs s c r).1 = some q) :
    q ∈ getAvailableQuestions qs s c := by
  by_cases hlen : (getAvailableQuestions qs s c).length = 0
  · simp [drawRandomQuestion, hlen] at h
  · have hne : getAvailableQuestions qs s c ≠ [] := fun hc => hlen (by rw [hc]; rfl)
    simp only [drawRandomQuestion, hlen, if_false] at h
    cases h
    exact getD_mem_of_ne_nil _ _ hne

theorem drawRandomQuestion_some_currentId (qs : List Question) (s : GameSt) (c : CategoryId)
    (r : Nat) (q : Question) (h : (drawRandomQuestion qs s c r).1 = some q) :
    ((drawRandomQuestion qs s c r).2).currentQuestionId = some q.id := by
  by_cases hlen : (getAvailableQuestions qs s c).length = 0
  · simp [drawRandomQuestion, hlen] at h
  · simp only [drawRandomQuestion, hlen, if_false] at h ⊢
    cases h
    rfl

theorem find_question_by_id (qs : List Question) (q : Question)
    (hnd : (qs.map Question.id).Nodup) (hq : q ∈ qs) :
    qs.find? (fun p => p.id == q.id) = some q := by
  induction qs with
  | nil => cases hq
  | cons a rest ih =>
    rcases List.mem_cons.mp hq with rfl | hmem
    · simp [List.find?]
    · have hne : a.id ≠ q.id := by
        intro hcontra
        have hidmem : q.id ∈ rest.map Question.id := List.mem_map_of_mem _ hmem
        rw [List.map_cons, List.nodup_cons] at hnd
        exact hnd.1 (hcontra ▸ hidmem)
      rw [List.find?_cons_of_neg _ (by simp [hne])]
      exact ih (List.nodup_cons.mp (by simpa using hnd)).2 hmem

theorem completeCurrentQuestion_of_current (qs : List Question) (s : GameSt) (q : Question)
    (hfind : currentQuestion qs s = some q) :
    completeCurrentQuestion qs s =
      { addToDiscardPile (markQuestionAsUsed s q) q.id with
          currentQuestionId := none
          currentCategory := none
          isFlipped := false
          hasRevealedAnswer := false } := by
  simp [completeCurrentQuestion, hfind]

theorem completeCurrentQuestion_used_mono (qs : List Question) (s : GameSt) (c : CategoryId)
    (x : Nat) (hx : x ∈ s.usedQuestionsByCategory.get c) :
    x ∈ (completeCurrentQuestion qs s).usedQuestionsByCategory.get c := by
  unfold completeCurrentQuestion
  cases hfind : currentQuestion qs s with
  | none => exact hx
  | some q =>
    simpa [addToDiscardPile] using markQuestionAsUsed_used_mono s q c x hx

theorem addToDiscardPile_nodup (s : GameSt) (qid : Nat) (h : s.discardPile.Nodup) :
    ((addToDiscardPile s qid).discardPile).Nodup := by
  by_cases hmem : qid ∈ s.discardPile
  · simpa [addToDiscardPile, hmem] using h
  · have hpile : (addToDiscardPile s qid).discardPile = s.discardPile ++ [qid] := by
      simp [addToDiscardPile, hmem]
    rw [hpile]
    exact List.Nodup.append h (List.nodup_singleton qid)
      (List.disjoint_singleton.mpr hmem)

theorem completeCurrentQuestion_pile_nodup (qs : List Question) (s : GameSt)
    (h : s.discardPile.Nodup) :
    ((completeCurrentQuestion qs s).discardPile).Nodup := by
  unfold completeCurrentQuestion
  cases hfind : currentQuestion qs s with
  | none => exact h
  | some q =>
    have hpile := markQuestionAsUsed_discardPile s q
    have hmk : ((markQuestionAsUsed s q).discardPile).Nodup := hpile ▸ h
    simpa using addToDiscardPile_nodup (markQuestionAsUsed s q) q.id hmk

theorem drawRandomOutcome_st (qs : List Question) (s : GameSt) (r : Nat) :
    ((drawRandomOutcome qs s r).2).discardPile = s.discardPile ∧
    ((drawRandomOutcome qs s r).2).usedQuestionsByCategory = s.usedQuestionsByCategory := by
  unfold drawRandomOutcome
  by_cases h1 : areAllCategoriesEmpty qs s
  · simp [h1]
  · by_cases h2 : (getAvailableOutcomes qs s).length == 0 <;> simp [h1, h2]

theorem Op.step_pile_nodup (qs : List Question) (s : GameSt) (op : Op)
    (h : s.discardPile.Nodup) : ((op.step qs s).discardPile).Nodup := by
  cases op with
  | drawOutcome r => exact (drawRandomOutcome_st qs s r).1 ▸ h
  | selectCat c => exact h
  | drawQuestion c r => exact (drawRandomQuestion_discardPile qs s c r) ▸ h
  | markUsed q => exact (markQuestionAsUsed_discardPile s q) ▸ h
  | addDiscard qid => exact addToDiscardPile_nodup s qid h
  | complete => exact completeCurrentQuestion_pile_nodup qs s h
  | navigate d =>
    unfold Op.step navigateDiscardPile
    by_cases hcond : s.discardIndex + d < 0 ∨ (s.discardPile.length : Int) ≤ s.discardIndex + d <;>
      simp [hcond] <;> exact h
  | setIndex i => exact h
  | resetCat c => exact h
  | resetAll => exact h
  | round => exact h
  | startNew sid t => simp [Op.step, startNewGame]
  | endSession => simp [Op.step, endGame]
  | setFlipped b => exact h
  | setRevealed b => exact h
  | setFlow f => exact h

theorem runOps_pile_nodup (qs : List Question) (s : GameSt) (L : List Op)
    (h : s.discardPile.Nodup) : ((runOps qs s L).discardPile).Nodup := by
  induction L generalizing s with
  | nil => exact h
  | cons op rest ih => exact ih _ (Op.step_pile_nodup qs s op h)

theorem completeCurrentQuestion_consumes (qs : List Question) (s : GameSt) (q : Question)
    (hfind : currentQuestion qs s = some q) :
    q.id ∈ ((completeCurrentQuestion qs s).usedQuestionsByCategory.get q.category) := by
  unfold completeCurrentQuestion
  rw [hfind]
  simpa [addToDiscardPile] using markQuestionAsUsed_consumes s q

theorem Op.step_used_mono (qs : List Question) (s : GameSt) (op : Op)
    (hop : op.isDrawOrComplete) (c : CategoryId) (x : Nat)
    (hx : x ∈ s.usedQuestionsByCategory.get c) :
    x ∈ ((op.step qs s).usedQuestionsByCategory.get c) := by
  cases op with
  | drawQuestion c' r =>
    rw [Op.step, drawRandomQuestion_used_unchanged]
    exact hx
  | complete => exact completeCurrentQuestion_used_mono qs s c x hx
  | drawOutcome r => exact False.elim hop
  | selectCat c' => exact False.elim hop
  | markUsed q => exact False.elim hop
  | addDiscard qid => exact False.elim hop
  | navigate d => exact False.elim hop
  | setIndex i => exact False.elim hop
  | resetCat c' => exact False.elim hop
  | resetAll => exact False.elim hop
  | round => exact False.elim hop
  | startNew sid t => exact False.elim hop
  | endSession => exact False.elim hop
  | setFlipped b => exact False.elim hop
  | setRevealed b => exact False.elim hop
  | setFlow f => exact False.elim hop

theorem runOps_used_mono (qs : List Question) (s : GameSt) (L : List Op)
    (hL : ∀ op ∈ L, op.isDrawOrComplete) (c : CategoryId) (x : Nat)
    (hx : x ∈ s.usedQuestionsByCategory.get c) :
    x ∈ ((runOps qs s L).usedQuestionsByCategory.get c) := by
  induction L generalizing s with
  | nil => exact hx
  | cons op rest ih =>
    exact ih _ (fun o ho => hL o (List.mem_cons_of_mem _ ho))
      (Op.step_used_mono qs s op (hL op (List.mem_cons_self _ _)) c x hx)

theorem getAvailableOutcomes_length_pos (qs : List Question) (s : GameSt) :
    0 < (getAvailableOutcomes qs s).length := by
  simp [getAvailableOutcomes]

theorem mem_getAvailableOutcomes_category (qs : List Question) (s : GameSt) (c : CategoryId) :
    RandomOutcome.category c ∈ getAvailableOutcomes qs s ↔
      c ∈ CATEGORY_IDS ∧ isCategoryEmpty qs s c = false := by
  simp [getAvailableOutcomes, List.mem_filter, List.mem_map]

theorem areAllCategoriesEmpty_iff (qs : List Question) (s : GameSt) :
    areAllCategoriesEmpty qs s = true ↔
      ∀ c ∈ CATEGORY_IDS, isCategoryEmpty qs s c = true := by
  simp [areAllCategoriesEmpty, List.all_eq_true]

theorem drawRandomOutcome_eq_none_iff (qs : List Question) (s : GameSt) (r : Nat) :
    (drawRandomOutcome qs s r).1 = none ↔ areAllCategoriesEmpty qs s = true := by
  by_cases h : areAllCategoriesEmpty qs s
  · simp [drawRandomOutcome, h]
  · have hlen := getAvailableOutcomes_length_pos qs s
    simp [drawRandomOutcome, h, Nat.pos_iff_ne_zero.mp hlen]

theorem drawRandomOutcome_some_eq (qs : List Question) (s : GameSt) (r : Nat)
    (hall : areAllCategoriesEmpty qs s = false)
    (hr : r < (getAvailableOutcomes qs s).length) :
    (drawRandomOutcome qs s r).1 = (getAvailableOutcomes qs s).get? r := by
  have hlen := getAvailableOutcomes_length_pos qs s
  simp only [drawRandomOutcome, hall, Bool.false_eq_true, if_false,
    Nat.pos_iff_ne_zero.mp hlen, beq_iff_eq, Nat.mod_eq_of_lt hr]
  exact getD_eq_get? _ r hr

theorem drawRandomOutcome_some_mem (qs : List Question) (s : GameSt) (r : Nat)
    (o : RandomOutcome) (h : (drawRandomOutcome qs s r).1 = some o) :
    o ∈ getAvailableOutcomes qs s := by
  have hlen := getAvailableOutcomes_length_pos qs s
  have hne : getAvailableOutcomes qs s ≠ [] := List.length_pos.mp hlen
  by_cases hall : areAllCategoriesEmpty qs s
  · simp [drawRandomOutcome, hall] at h
  · simp only [drawRandomOutcome, hall, Bool.false_eq_true, if_false] at h
    rw [if_neg (by simpa using Nat.pos_iff_ne_zero.mp hlen)] at h
    cases h
    exact getD_mem_of_ne_nil _ _ hne

theorem drawRandomQuestion_some_eq (qs : List Question) (s : GameSt) (c : CategoryId)
    (r : Nat) (hr : r < (getAvailableQuestions qs s c).length) :
    (drawRandomQuestion qs s c r).1 = (getAvailableQuestions qs s c).get? r := by
  have hlen : ¬((getAvailableQuestions qs s c).length = 0) := by omega
  simp only [drawRandomQuestion, hlen, if_false, Nat.mod_eq_of_lt hr]
  exact getD_eq_get? _ r hr

theorem validatePersistedState_eq_none_iff (v : Json) :
    validatePersistedState v = none ↔
      ¬(jsTruthy v = true ∧ jsTypeofObject v = true ∧
        propIsString (jget v "sessionId") = true ∧
        propIsNumberOne (jget v "schemaVersion") = true ∧
        propIsArray (jget v "discardPileIds") = true ∧
        propIsNonNullObject (jget v "usedQuestionsByCategory") = true) := by
  unfold validatePersistedState
  by_cases h1 : jsTruthy v <;>
    by_cases h2 : jsTypeofObject v <;>
      by_cases h3 : propIsString (jget v "sessionId") <;>
        by_cases h4 : propIsNumberOne (jget v "schemaVersion") <;>
          by_cases h5 : propIsArray (jget v "discardPileIds") <;>
            by_cases h6 : propIsNonNullObject (jget v "usedQuestionsByCategory") <;>
              simp [h1, h2, h3, h4, h5, h6]

theorem validatePersistedState_some_eq (v v' : Json)
    (h : validatePersistedState v = some v') : v' = v := by
  unfold validatePersistedState at h
  by_cases h1 : jsTruthy v <;>
    by_cases h2 : jsTypeofObject v <;>
      by_cases h3 : propIsString (jget v "sessionId") <;>
        by_cases h4 : propIsNumberOne (jget v "schemaVersion") <;>
          by_cases h5 : propIsArray (jget v "discardPileIds") <;>
            by_cases h6 : propIsNonNullObject (jget v "usedQuestionsByCategory") <;>
              simp [h1, h2, h3, h4, h5, h6] at h <;> exact h.symm

/-! ## Claims -/

/-- C1 (amended): for every state whose `currentQuestionId` resolves to a
catalog question `q` (ids unique), `completeCurrentQuestion` adds `q.id` to
its topic's consumed set, puts `q.id` in the discard pile — appending it
(so the pile then ends with `q.id`) when it was not already present, and
leaving the pile unchanged when it was (e.g. after a topic reshuffle) —
resets the cursor to 0, and clears `currentQuestionId`, the selected
category, `isFlipped` and `hasRevealedAnswer`. -/
theorem c1_completeCurrentQuestion_effects (qs : List Question) (s : GameSt) (q : Question)
    (hnd : (qs.map Question.id).Nodup) (hq : q ∈ qs)
    (hcur : s.currentQuestionId = some q.id) :
    q.id ∈ (completeCurrentQuestion qs s).usedQuestionsByCategory.get q.category ∧
    q.id ∈ (completeCurrentQuestion qs s).discardPile ∧
    (q.id ∉ s.discardPile →
      (completeCurrentQuestion qs s).discardPile = s.discardPile ++ [q.id] ∧
      ((completeCurrentQuestion qs s).discardPile).getLast? = some q.id) ∧
    (q.id ∈ s.discardPile → (completeCurrentQuestion qs s).discardPile = s.discardPile) ∧
    (completeCurrentQuestion qs s).discardIndex = 0 ∧
    (completeCurrentQuestion qs s).currentQuestionId = none ∧
    (completeCurrentQuestion qs s).currentCategory = none ∧
    (completeCurrentQuestion qs s).isFlipped = false ∧
    (completeCurrentQuestion qs s).hasRevealedAnswer = false := by
  have hfind : currentQuestion qs s = some q := by
    unfold currentQuestion
    rw [hcur]
    exact find_question_by_id qs q hnd hq
  rw [completeCurrentQuestion_of_current qs s q hfind]
  have hmkpile := markQuestionAsUsed_discardPile s q
  refine ⟨?_, ?_, ?_, ?_, rfl, rfl, rfl, rfl, rfl⟩
  · simpa [addToDiscardPile] using markQuestionAsUsed_consumes s q
  · by_cases hmem : q.id ∈ s.discardPile <;> simp [addToDiscardPile, hmkpile, hmem]
  · intro hmem
    constructor <;> simp [addToDiscardPile, hmkpile, hmem]
  · intro hmem
    simp [addToDiscardPile, hmkpile, hmem]

/-- C1 witness: the effects theorem applied to a concrete fresh completion. -/
theorem c1_completeCurrentQuestion_effects_witness :
    qA1.id ∈ (completeCurrentQuestion sampleCatalog
        stDraw1).usedQuestionsByCategory.get qA1.category ∧
    qA1.id ∈ (completeCurrentQuestion sampleCatalog stDraw1).discardPile ∧
    (qA1.id ∉ stDraw1.discardPile →
      (completeCurrentQuestion sampleCatalog stDraw1).discardPile
          = stDraw1.discardPile ++ [qA1.id] ∧
      ((completeCurrentQuestion sampleCatalog stDraw1).discardPile).getLast?
          = some qA1.id) ∧
    (qA1.id ∈ stDraw1.discardPile →
      (completeCurrentQuestion sampleCatalog stDraw1).discardPile
          = stDraw1.discardPile) ∧
    (completeCurrentQuestion sampleCatalog stDraw1).discardIndex = 0 ∧
    (completeCurrentQuestion sampleCatalog stDraw1).currentQuestionId = none ∧
    (completeCurrentQuestion sampleCatalog stDraw1).currentCategory = none ∧
    (completeCurrentQuestion sampleCatalog stDraw1).isFlipped = false ∧
    (completeCurrentQuestion sampleCatalog stDraw1).hasRevealedAnswer = false :=
  c1_completeCurrentQuestion_effects sampleCatalog stDraw1 qA1
    (by decide) (by decide) (by decide)

/-- C1 counterexample: completing question 5 while id 5 is already in the
pile `[5, 7]` leaves the pile unchanged, so the last pile entry is 7, not
the completed id — refuting clause (b) for states where the id is already
present. -/
theorem c1_redraw_counterexample :
    stRedraw.currentQuestionId = some 5 ∧
    5 ∈ stRedraw.discardPile ∧
    (completeCurrentQuestion dupCatalog stRedraw).discardPile.getLast? ≠ some 5 := by
  decide

/-- C2: hydration drops the stale id 99 from the persisted discard pile
(content repair), yet the repair re-save does not fire, because the re-save
condition only watches `currentQuestionId` and `flowStep` — the repaired
snapshot is NOT re-persisted although repair changed the stored data.  This
contradicts the hydration code's own stated intent of saving cleaned data
back. -/
theorem c2_repair_resave_missed :
    (hydrate sampleCatalog snapStalePile).1.discardPile = [] ∧
    snapStalePile.discardPileIds = [99] ∧
    (hydrate sampleCatalog snapStalePile).2 = none := by
  decide

/-- C3: `drawRandomOutcome` returns none exactly when all four categories
are exhausted; any returned outcome is in the eligible set (non-exhausted
categories plus the two choose modes, so never an exhausted category); and
when not everything is exhausted the sampled index `r` selects the r-th
eligible outcome (uniform sampling over the eligible set). -/
theorem c3_drawRandomOutcome_spec (qs : List Question) (s : GameSt) (r : Nat) :
    ((drawRandomOutcome qs s r).1 = none ↔
        ∀ c ∈ CATEGORY_IDS, isCategoryEmpty qs s c = true) ∧
    (∀ o, (drawRandomOutcome qs s r).1 = some o → o ∈ getAvailableOutcomes qs s) ∧
    (∀ c, isCategoryEmpty qs s c = true →
        RandomOutcome.category c ∉ getAvailableOutcomes qs s) ∧
    (areAllCategoriesEmpty qs s = false → r < (getAvailableOutcomes qs s).length →
        (drawRandomOutcome qs s r).1 = (getAvailableOutcomes qs s).get? r) := by
  refine ⟨?_, fun o h => drawRandomOutcome_some_mem qs s r o h, ?_,
    fun h hr => drawRandomOutcome_some_eq qs s r h hr⟩
  · rw [drawRandomOutcome_eq_none_iff]
    exact areAllCategoriesEmpty_iff qs s
  · intro c hc hmem
    rcases (mem_getAvailableOutcomes_category qs s c).mp hmem with ⟨_, hfalse⟩
    rw [hc] at hfalse
    cases hfalse

/-- C3 witness: with the sample catalog (two categories populated), index 0
picks the first eligible outcome. -/
theorem c3_drawRandomOutcome_spec_witness :
    (drawRandomOutcome sampleCatalog initialGameSt 0).1
      = (getAvailableOutcomes sampleCatalog initialGameSt).get? 0 :=
  (c3_drawRandomOutcome_spec sampleCatalog initialGameSt 0).2.2.2 (by decide) (by decide)

/-- C4 counterexample: two consecutive `drawRandomQuestion` calls on the
same topic with no completion in between (an abandoned draw) return the
same question — refuting the claim for general draw/complete sequences. -/
theorem c4_redraw_counterexample :
    (drawRandomQuestion sampleCatalog initialGameSt CategoryId.prylar 0).1 = some qA1 ∧
    (drawRandomQuestion sampleCatalog
        (drawRandomQuestion sampleCatalog initialGameSt CategoryId.prylar 0).2
        CategoryId.prylar 0).1 = some qA1 := by
  decide

/-- C4 (amended): once a drawn question is completed, no later
`drawRandomQuestion` on that topic can return it again across any further
draw/complete operations (no resets), for a catalog with unique ids. -/
theorem c4_no_repeat_after_complete (qs : List Question) (s : GameSt) (c : CategoryId)
    (r1 r2 : Nat) (L : List Op) (q1 q2 : Question)
    (hnd : (qs.map Question.id).Nodup)
    (hL : ∀ op ∈ L, op.isDrawOrComplete)
    (h1 : (drawRandomQuestion qs s c r1).1 = some q1)
    (h2 : (drawRandomQuestion qs
            (runOps qs (completeCurrentQuestion qs (drawRandomQuestion qs s c r1).2) L)
            c r2).1 = some q2) :
    q2.id ≠ q1.id := by
  have hmem1 := drawRandomQuestion_some_mem qs s c r1 q1 h1
  rcases (mem_getAvailableQuestions qs s c q1).mp hmem1 with ⟨hq1, hcat1, _⟩
  have hcur : ((drawRandomQuestion qs s c r1).2).currentQuestionId = some q1.id :=
    drawRandomQuestion_some_currentId qs s c r1 q1 h1
  have hfind : currentQuestion qs ((drawRandomQuestion qs s c r1).2) = some q1 := by
    unfold currentQuestion
    rw [hcur]
    exact find_question_by_id qs q1 hnd hq1
  have hconsumed :=
    completeCurrentQuestion_consumes qs ((drawRandomQuestion qs s c r1).2) q1 hfind
  rw [hcat1] at hconsumed
  have hstill := runOps_used_mono qs
    (completeCurrentQuestion qs ((drawRandomQuestion qs s c r1).2)) L hL c q1.id hconsumed
  have hmem2 := drawRandomQuestion_some_mem qs _ c r2 q2 h2
  rcases (mem_getAvailableQuestions qs _ c q2).mp hmem2 with ⟨_, _, hfresh2⟩
  intro heq
  rw [heq] at hfresh2
  exact hfresh2 hstill

/-- C4 witness: draw question 1, complete it, draw again — the second draw
yields question 2, a different id. -/
theorem c4_no_repeat_after_complete_witness : qA2.id ≠ qA1.id :=
  c4_no_repeat_after_complete sampleCatalog initialGameSt CategoryId.prylar 0 0 [] qA1 qA2
    (by decide) (by simp) (by decide) (by decide)

/-- C5 counterexample: a validated snapshot may store a negative cursor
(`validatePersistedState` never looks at `discardActiveIndex`); hydration
only clamps with `min(stored, length - 1)`, so the restored state has a
non-empty pile and a cursor of -3, violating `0 ≤ cursor`. -/
theorem c5_negative_cursor_counterexample :
    (hydrate sampleCatalog snapNegCursor).1.discardPile ≠ [] ∧
    (hydrate sampleCatalog snapNegCursor).1.discardIndex < 0 := by
  decide

/-- C5 (amended): hydration clamps the cursor from above — with a non-empty
repaired pile the cursor is < length, and additionally ≥ 0 whenever the
persisted cursor was non-negative; appending via `addToDiscardPile` always
resets the cursor to the newest position 0. -/
theorem c5_cursor_bounds (qs : List Question) (p : PersistedGameState) (s : GameSt)
    (qid : Nat)
    (hne : (hydrate qs p).1.discardPile ≠ []) :
    ((hydrate qs p).1.discardIndex < (((hydrate qs p).1.discardPile).length : Int)) ∧
    (0 ≤ p.discardActiveIndex → 0 ≤ (hydrate qs p).1.discardIndex) ∧
    (addToDiscardPile s qid).discardIndex = 0 := by
  have hidx : (hydrate qs p).1.discardIndex
      = min p.discardActiveIndex ((((hydrate qs p).1.discardPile).length : Int) - 1) := rfl
  have hlen : 0 < ((hydrate qs p).1.discardPile).length := List.length_pos.mpr hne
  have hlen' : (1 : Int) ≤ (((hydrate qs p).1.discardPile).length : Int) := by
    exact_mod_cast hlen
  refine ⟨?_, ?_, rfl⟩
  · rw [hidx]
    have hmin := min_le_right p.discardActiveIndex
      ((((hydrate qs p).1.discardPile).length : Int) - 1)
    omega
  · intro h0
    rw [hidx]
    exact le_min h0 (by omega)

/-- C5 witness: the bounds theorem at a concrete valid snapshot. -/
theorem c5_cursor_bounds_witness :
    ((hydrate sampleCatalog snapValidPile).1.discardIndex
        < (((hydrate sampleCatalog snapValidPile).1.discardPile).length : Int)) ∧
    (0 ≤ snapValidPile.discardActiveIndex →
      0 ≤ (hydrate sampleCatalog snapValidPile).1.discardIndex) ∧
    (addToDiscardPile initialGameSt 1).discardIndex = 0 :=
  c5_cursor_bounds sampleCatalog snapValidPile initialGameSt 1 (by decide)

/-- C6: `drawRandomQuestion` returns none exactly when every catalog
question of the topic is consumed; a returned question belongs to the
topic, is unconsumed, and becomes `currentQuestionId`; no consumed set is
modified by a draw; and the sampled index `r` selects the r-th available
question (uniform sampling over the available subset). -/
theorem c6_drawRandomQuestion_spec (qs : List Question) (s : GameSt) (c : CategoryId)
    (r : Nat) :
    ((drawRandomQuestion qs s c r).1 = none ↔
        ∀ q ∈ qs, q.category = c → q.id ∈ s.usedQuestionsByCategory.get c) ∧
    (∀ q, (drawRandomQuestion qs s c r).1 = some q →
        q ∈ qs ∧ q.category = c ∧ q.id ∉ s.usedQuestionsByCategory.get c ∧
        ((drawRandomQuestion qs s c r).2).currentQuestionId = some q.id) ∧
    ((drawRandomQuestion qs s c r).2).usedQuestionsByCategory = s.usedQuestionsByCategory ∧
    (r < (getAvailableQuestions qs s c).length →
        (drawRandomQuestion qs s c r).1 = (getAvailableQuestions qs s c).get? r) := by
  refine ⟨?_, ?_, drawRandomQuestion_used_unchanged qs s c r,
    fun hr => drawRandomQuestion_some_eq qs s c r hr⟩
  · rw [drawRandomQuestion_eq_none_iff]
    exact getAvailableQuestions_eq_nil_iff qs s c
  · intro q hq
    rcases (mem_getAvailableQuestions qs s c q).mp (drawRandomQuestion_some_mem qs s c r q hq)
      with ⟨h1, h2, h3⟩
    exact ⟨h1, h2, h3, drawRandomQuestion_some_currentId qs s c r q hq⟩

/-- C6 witness: index 1 on the sample catalog picks the second available
prylar question. -/
theorem c6_drawRandomQuestion_spec_witness :
    (drawRandomQuestion sampleCatalog initialGameSt CategoryId.prylar 1).1
      = (getAvailableQuestions sampleCatalog initialGameSt CategoryId.prylar).get? 1 :=
  (c6_drawRandomQuestion_spec sampleCatalog initialGameSt CategoryId.prylar 1).2.2.2
    (by decide)

/-- C7 counterexample: an object carrying only the four checked properties
passes validation and is returned by `loadPersistedGameState`, although the
snapshot-schema fields `isFlipped`, `currentQuestionId`, `flowStep` and
`discardActiveIndex` are all missing — so "required fields missing" does
not imply a null result. -/
theorem c7_minimal_object_counterexample :
    (loadPersistedGameState (StoredValue.json snapMinimalObj)).1 = some snapMinimalObj ∧
    jget snapMinimalObj "isFlipped" = none ∧
    jget snapMinimalObj "currentQuestionId" = none ∧
    jget snapMinimalObj "flowStep" = none ∧
    jget snapMinimalObj "discardActiveIndex" = none :=
  ⟨rfl, rfl, rfl, rfl, rfl⟩

/-- C7 (amended): `loadPersistedGameState` yields null exactly when the
stored value is absent, unparsable, or fails the validator's actual checks
(truthy object, string `sessionId`, numeric `schemaVersion` equal to 1,
array `discardPileIds`, non-null object `usedQuestionsByCategory`); on a
parse or validation failure the storage entry is cleared; fields beyond
those five checks are not validated, and a successful load returns the
stored value unchanged. -/
theorem c7_load_validation_spec (v : Json) :
    loadPersistedGameState StoredValue.absent = (none, false) ∧
    loadPersistedGameState StoredValue.malformed = (none, true) ∧
    ((loadPersistedGameState (StoredValue.json v)).1 = none ↔
        validatePersistedState v = none) ∧
    ((loadPersistedGameState (StoredValue.json v)).1 = none →
        (loadPersistedGameState (StoredValue.json v)).2 = true) ∧
    (validatePersistedState v = none ↔
      ¬(jsTruthy v = true ∧ jsTypeofObject v = true ∧
        propIsString (jget v "sessionId") = true ∧
        propIsNumberOne (jget v "schemaVersion") = true ∧
        propIsArray (jget v "discardPileIds") = true ∧
        propIsNonNullObject (jget v "usedQuestionsByCategory") = true)) ∧
    (∀ v', (loadPersistedGameState (StoredValue.json v)).1 = some v' → v' = v) := by
  cases h : validatePersistedState v with
  | none =>
    refine ⟨rfl, rfl, ?_, ?_, h ▸ validatePersistedState_eq_none_iff v, ?_⟩
    · simp [loadPersistedGameState, h]
    · intro _
      simp [loadPersistedGameState, h]
    · intro v' hv'
      simp [loadPersistedGameState, h] at hv'
  | some w =>
    have hw : w = v := validatePersistedState_some_eq v w h
    refine ⟨rfl, rfl, ?_, ?_, h ▸ validatePersistedState_eq_none_iff v, ?_⟩
    · simp [loadPersistedGameState, h]
    · intro hnone
      simp [loadPersistedGameState, h] at hnone
    · intro v' hv'
      simp [loadPersistedGameState, h] at hv'
      rw [← hv']
      exact hw

/-- C7 witness: a stored JSON `null` is rejected and the entry cleared. -/
theorem c7_load_validation_spec_witness :
    (loadPersistedGameState (StoredValue.json Json.null)).2 = true :=
  (c7_load_validation_spec Json.null).2.2.2.1 rfl

/-- C8 counterexample: with pile `[1, 2]` and the cursor at the oldest
position (1), `goOlder` is a no-op but `goNewer` still moves to position 0,
so the pair does not restore the original current card. -/
theorem c8_oldest_position_counterexample :
    stOldest.discardIndex = ((stOldest.discardPile).length : Int) - 1 ∧
    getCurrentDiscardCard sampleCatalog
        ((navigateDiscardPile sampleCatalog
          ((navigateDiscardPile sampleCatalog stOldest 1).1) (-1)).1)
      ≠ getCurrentDiscardCard sampleCatalog stOldest := by
  decide

/-- C8 (amended): from any in-range cursor strictly before the oldest
position, `goOlder` followed by `goNewer` restores the exact original state
(hence the original current card), and `setDiscardIndex` at the current
cursor is the identity; at the oldest position of a pile with at least two
cards the pair instead moves the cursor (see the counterexample). -/
theorem c8_navigation_roundtrip (qs : List Question) (s : GameSt)
    (hne : s.discardPile ≠ [])
    (h0 : 0 ≤ s.discardIndex)
    (hlt : s.discardIndex + 1 < ((s.discardPile).length : Int)) :
    (navigateDiscardPile qs (navigateDiscardPile qs s 1).1 (-1)).1 = s ∧
    getCurrentDiscardCard qs (navigateDiscardPile qs (navigateDiscardPile qs s 1).1 (-1)).1
      = getCurrentDiscardCard qs s ∧
    setDiscardIndex s s.discardIndex = s := by
  have h1 : (navigateDiscardPile qs s 1).1 = { s with discardIndex := s.discardIndex + 1 } := by
    simp only [navigateDiscardPile]
    rw [if_neg (by omega)]
  have h2 : (navigateDiscardPile qs { s with discardIndex := s.discardIndex + 1 } (-1)).1
      = s := by
    simp only [navigateDiscardPile]
    rw [if_neg (show ¬(s.discardIndex + 1 + -1 < 0 ∨
      ((s.discardPile).length : Int) ≤ s.discardIndex + 1 + -1) by omega)]
    show ({ s with discardIndex := s.discardIndex + 1 + -1 } : GameSt) = s
    have harith : s.discardIndex + 1 + -1 = s.discardIndex := by ring
    rw [harith]
  rw [h1, h2]
  exact ⟨rfl, rfl, rfl⟩

/-- C8 witness: the round trip at pile `[1, 2]`, cursor 0. -/
theorem c8_navigation_roundtrip_witness :
    (navigateDiscardPile sampleCatalog (navigateDiscardPile sampleCatalog stPile12 1).1
        (-1)).1 = stPile12 ∧
    getCurrentDiscardCard sampleCatalog
        (navigateDiscardPile sampleCatalog (navigateDiscardPile sampleCatalog stPile12 1).1
          (-1)).1
      = getCurrentDiscardCard sampleCatalog stPile12 ∧
    setDiscardIndex stPile12 stPile12.discardIndex = stPile12 :=
  c8_navigation_roundtrip sampleCatalog stPile12 (by decide) (by decide) (by decide)

/-- C9: `resetUsedQuestionsForCategory` clears exactly the given topic's
consumed set, `resetAllUsedQuestions` clears all of them, `resetRound`
delegates to `resetAllUsedQuestions`, and none of them touches the discard
pile in any way. -/
theorem c9_reset_frame (s : GameSt) (c c' : CategoryId) :
    ((resetUsedQuestionsForCategory s c).usedQuestionsByCategory.get c'
        = if c' = c then [] else s.usedQuestionsByCategory.get c') ∧
    (resetUsedQuestionsForCategory s c).discardPile = s.discardPile ∧
    (resetAllUsedQuestions s).usedQuestionsByCategory.get c' = [] ∧
    (resetAllUsedQuestions s).discardPile = s.discardPile ∧
    resetRound s = resetAllUsedQuestions s := by
  refine ⟨UsedMap.get_set _ _ _ _, rfl, ?_, rfl, rfl⟩
  cases c' <;> rfl

/-- C10: `addToDiscardPile` on an id already present leaves the pile
unchanged while still resetting the cursor to 0, and every sequence of
engine operations preserves pairwise-distinct pile elements (so from the
empty pile the pile is always duplicate-free). -/
theorem c10_discard_nodup (qs : List Question) (s : GameSt) (qid : Nat) (L : List Op)
    (hmem : qid ∈ s.discardPile) (hnd : (s.discardPile).Nodup) :
    (addToDiscardPile s qid).discardPile = s.discardPile ∧
    (addToDiscardPile s qid).discardIndex = 0 ∧
    ((runOps qs s L).discardPile).Nodup := by
  exact ⟨by simp [addToDiscardPile, hmem], rfl, runOps_pile_nodup qs s L hnd⟩

/-- C10 witness: re-adding id 1 to pile `[1, 2]` and running a completion. -/
theorem c10_discard_nodup_witness :
    (addToDiscardPile stPile12 1).discardPile = stPile12.discardPile ∧
    (addToDiscardPile stPile12 1).discardIndex = 0 ∧
    ((runOps sampleCatalog stPile12 [Op.complete]).discardPile).Nodup :=
  c10_discard_nodup sampleCatalog stPile12 1 [Op.complete] (by decide) (by decide)
